import Mathlib

/-!
# Verification of the threshold-crossing alert engine of `bot.py`

This file is a shallow embedding, in Lean 4, of the alert engine of the
Telegram weather bot in `src/bot.py`, together with theorems checking the
natural-language specification against it.

Modelling choices:

* Temperatures and thresholds are rationals (`ℚ`).  The Python code works
  with `float` values that arrive either from the user (`float(x.strip())`
  on decimal literals) or from the weather API; all the comparisons the
  engine performs (`<`, `>=`, subtraction by the constant `5`) agree with
  exact rational arithmetic on such values.
* Python dictionaries (`alerts` keyed by station id, `targets` keyed by
  threshold) are modelled as association lists in insertion order, which is
  exactly the iteration order of a Python `dict`.  `dict[k] = v` is
  `insertTarget` / `addCity`: overwrite in place when the key is present,
  append otherwise.
* The network (`get_weather_data`) is an oracle
  `fetch : String → Option ℚ × Option ℚ` mapping a station id to the
  optional current temperature and the optional predicted high, exactly the
  pair of optional values `get_weather_data` returns.  A `none` first
  component is the "no usable current reading" case
  (`current_temp is None`).
* `context.job_queue` is modelled by a boolean `timer` field: `true` iff a
  repeating job named after the chat is scheduled.  `job.schedule_removal()`
  and `run_repeating` become assignments to this field.
* Outbound messages (`reply_text`, `bot.send_message`) are returned as
  values instead of performed as effects; a tick also returns the list of
  station ids it fetched, so that "performs no network call" is a statement
  about the result.
-/

/-- One alert target, `threshold ↦ ('alerted': bool)` in
`user_data['alerts'][station]['targets']`.  The first component is the
threshold, the second is the `alerted` flag (`false` = armed, `true` =
fired). -/
abbrev Target := ℚ × Bool

/-- The per-city record `('city': …, 'forecast_url': …, 'targets': …)`
stored in `user_data['alerts'][station_id]`. -/
structure CityData where
  city : String
  forecast_url : String
  targets : List Target
deriving DecidableEq

/-- The chat-scoped state the bot keeps: `user_data['alerts']` (an
insertion-ordered dictionary from station id to `CityData`) together with
whether the chat's repeating job is scheduled in the job queue. -/
structure MonitorState where
  alerts : List (String × CityData)
  timer : Bool
deriving DecidableEq

/-- The location data `set_city` stashes in
`context.user_data['temp_station_id' / 'temp_city_name' /
'temp_forecast_url']` before `set_thresholds` runs. -/
structure PendingCity where
  station_id : String
  city : String
  forecast_url : String
deriving DecidableEq

/-- One alert message sent by `check_weather_job`.  `station` records which
city's loop iteration sent it; the remaining fields are exactly the data
interpolated into the message text (city name, current temperature, the
crossed threshold, and the optional predicted high, which the code prints
even when it is `None`). -/
structure Notification where
  station : String
  city : String
  current : ℚ
  target : ℚ
  high : Option ℚ
deriving DecidableEq

/-- The replies the modelled handlers can send to the chat, abstracting the
literal message strings of `bot.py`. -/
inductive Reply where
  /-- The usage reply: "❌ Invalid format. Please enter numbers separated by commas …". -/
  | invalidFormat : Reply
  /-- The confirmation reply: "✅ Added (count) alerts for (city).". -/
  | added (count : ℕ) (city : String) : Reply
  /-- The clear reply: "🗑 All alerts cleared and monitoring stopped.". -/
  | cleared : Reply
deriving DecidableEq

/-- The conversation state `set_thresholds` returns: stay in the
`THRESHOLDS` state (re-prompt) or end the conversation. -/
inductive ConvOutcome where
  | thresholds : ConvOutcome
  | conversationEnd : ConvOutcome
deriving DecidableEq

/-! ## Parsing: `float(x.strip()) for x in text.split(',')`

Python's `str.split(',')` and `float` are builtins; they are embedded here
at the character level.  `parseFloat?` models `float` on its finite-literal
forms (optional sign, decimal digits with an optional point, optional
decimal exponent, surrounding whitespace); the special forms `inf`/`nan`
and digit-group underscores, which have no rational value or do not occur
in chat input, are outside the model. -/

/-- Split a character list at every character satisfying `p`, keeping empty
chunks, like Python `str.split` with an explicit separator. -/
def splitOnPred (p : Char → Bool) : List Char → List (List Char)
  | [] => [[]]
  | c :: rest =>
    let r := splitOnPred p rest
    if p c then [] :: r
    else
      match r with
      | [] => [[c]]
      | h :: t => (c :: h) :: t

/-- Strip leading and trailing whitespace, like Python `str.strip()`. -/
def stripChars (cs : List Char) : List Char :=
  ((cs.dropWhile Char.isWhitespace).reverse.dropWhile Char.isWhitespace).reverse

/-- Numeric value of a digit string, most significant digit first. -/
def natVal (cs : List Char) : ℕ :=
  cs.foldl (fun a c => a * 10 + (c.toNat - 48)) 0

/-- Consume one optional leading sign; returns (negative?, rest). -/
def parseSign : List Char → Bool × List Char
  | '-' :: rest => (true, rest)
  | '+' :: rest => (false, rest)
  | cs => (false, cs)

/-- A signed decimal integer (the exponent part of a float literal). -/
def parseSignedInt? (cs : List Char) : Option ℤ :=
  let (neg, r) := parseSign cs
  if r ≠ [] ∧ r.all Char.isDigit then
    some ((if neg then -1 else 1) * (natVal r : ℤ))
  else none

/-- The mantissa of a float literal: optional sign, then digits with an
optional decimal point; at least one digit overall (`"5."`, `".5"` parse,
`"."` and `""` do not, as for Python `float`). -/
def parseMantissa? (cs : List Char) : Option ℚ :=
  let (neg, r) := parseSign cs
  let sgn : ℚ := if neg then -1 else 1
  match splitOnPred (fun c => c == '.') r with
  | [ip] =>
      if ip ≠ [] ∧ ip.all Char.isDigit then some (sgn * (natVal ip : ℚ)) else none
  | [ip, fp] =>
      if (ip ≠ [] ∨ fp ≠ []) ∧ ip.all Char.isDigit ∧ fp.all Char.isDigit then
        some (sgn * ((natVal ip : ℚ) + (natVal fp : ℚ) / 10 ^ fp.length))
      else none
  | _ => none

/-- Model of Python `float(s.strip())` on finite decimal literals. -/
def parseFloat? (s : String) : Option ℚ :=
  let cs := stripChars s.toList
  match splitOnPred (fun c => c == 'e' || c == 'E') cs with
  | [m] => parseMantissa? m
  | [m, ex] =>
      (parseMantissa? m).bind fun mv =>
        (parseSignedInt? ex).map fun e => mv * (10 : ℚ) ^ e
  | _ => none

/-- Model of the list comprehension
`[float(x.strip()) for x in text.split(',')]`: all-or-nothing — a single
`ValueError` aborts the whole comprehension before any result exists. -/
def parseThresholds (text : String) : Option (List ℚ) :=
  (splitOnPred (fun c => c == ',') text.toList).mapM
    fun chunk => parseFloat? (String.mk chunk)

/-! ## Watch management -/

/-- The assignment `targets[num] = ('alerted': False)` on the dictionary modelled as an
association list: overwrite in place if the key is present, else append. -/
def insertTarget (num : ℚ) (ts : List Target) : List Target :=
  if ts.any (fun p => p.1 = num) then
    ts.map fun p => if p.1 = num then (num, false) else p
  else ts ++ [(num, false)]

/-- The `for num in raw_nums` loop of `set_thresholds`. -/
def addTargets (nums : List ℚ) (ts : List Target) : List Target :=
  nums.foldl (fun acc n => insertTarget n acc) ts

/-- The alerts-dictionary update of `set_thresholds`: create the station
entry if absent (with the pending city name and forecast url), then add all
parsed targets to that entry.  An existing entry keeps its stored city and
forecast url. -/
def addCity (p : PendingCity) (nums : List ℚ) (alerts : List (String × CityData)) :
    List (String × CityData) :=
  let alerts' :=
    if alerts.any (fun sd => sd.1 = p.station_id) then alerts
    else alerts ++ [(p.station_id, ⟨p.city, p.forecast_url, []⟩)]
  alerts'.map fun sd =>
    if sd.1 = p.station_id then (sd.1, { sd.2 with targets := addTargets nums sd.2.targets })
    else sd

/-- Model of `set_thresholds(update, context)`: parse the message text; on a
`ValueError` reply with the usage message and stay in the `THRESHOLDS`
state, touching nothing; otherwise add the targets under the pending
station, make sure the chat's repeating job is running, and confirm. -/
def set_thresholds (p : PendingCity) (text : String) (st : MonitorState) :
    MonitorState × Reply × ConvOutcome :=
  match parseThresholds text with
  | none => (st, Reply.invalidFormat, ConvOutcome.thresholds)
  | some nums =>
      (⟨addCity p nums st.alerts, true⟩, Reply.added nums.length p.city,
        ConvOutcome.conversationEnd)

/-- Model of `clear_alerts`: empty the alerts dictionary and remove every job named
after the chat. -/
def clear_alerts (_st : MonitorState) : MonitorState × Reply :=
  (⟨[], false⟩, Reply.cleared)

/-! ## Listing -/

/-- The per-city block of the `/list` message: the stored city name
together with `sorted(data['targets'].keys())`, each key paired with its
`alerted` flag (`true` renders as "✅ Fired", `false` as "⏳ Waiting"). -/
def renderTargets (ts : List Target) : List Target :=
  (List.insertionSort (· ≤ ·) (ts.map Prod.fst)).map
    fun t => (t, ((ts.lookup t).getD false))

/-- Model of `list_alerts`: a pure read of the state.  It returns the (unchanged)
state, the structured content of the message — one `(city, sorted targets
with status)` block per station — and the list of stations it queried the
Temperature Source for, which is empty: `list_alerts` in `bot.py` performs
no network call.  The `fetch` oracle is passed in only to record that it is
never consulted. -/
def list_alerts (_fetch : String → Option ℚ × Option ℚ) (st : MonitorState) :
    MonitorState × List (String × List Target) × List String :=
  (st, st.alerts.map fun sd => (sd.2.city, renderTargets sd.2.targets), [])

/-! ## The tick: `check_weather_job` -/

/-- The body of the `for limit, status in targets.items()` loop for one
target: first the reset logic (`current_temp < limit - 5` re-arms), then
the trigger logic (`current_temp >= limit and not status['alerted']`
sends and marks fired).  Returns the updated target and whether an alert
message was sent for it. -/
def processTarget (r : ℚ) (p : Target) : Target × Bool :=
  let a1 : Bool := if r < p.1 - 5 then false else p.2
  if p.1 ≤ r ∧ a1 = false then ((p.1, true), true) else ((p.1, a1), false)

/-- The whole `targets.items()` loop: updated targets in order, plus the
thresholds that fired, in iteration order. -/
def processTargets (r : ℚ) : List Target → List Target × List ℚ
  | [] => ([], [])
  | p :: ps =>
    let (p', fired) := processTarget r p
    let (ps', fs) := processTargets r ps
    (p' :: ps', (if fired then [p.1] else []) ++ fs)

/-- One iteration of the `for station_id, data in user_data['alerts']`
loop: with no usable current reading the city is skipped unchanged
(`continue`); otherwise every target is checked and each firing produces
one alert message carrying the city, the current temperature, the crossed
threshold and the predicted high. -/
def tickCity (cur : Option ℚ) (hi : Option ℚ) (s : String) (d : CityData) :
    CityData × List Notification :=
  match cur with
  | none => (d, [])
  | some r =>
      let (ts, fired) := processTargets r d.targets
      ({ d with targets := ts }, fired.map fun t => ⟨s, d.city, r, t, hi⟩)

/-- Model of `check_weather_job(context)`: if the chat has no alerts, remove the job
itself and return; otherwise fetch once per city and process that city's
targets.  Returns the new state, the station ids fetched, and the alert
messages sent, in order. -/
def check_weather_job (fetch : String → Option ℚ × Option ℚ) (st : MonitorState) :
    MonitorState × List String × List Notification :=
  if st.alerts = [] then (⟨st.alerts, false⟩, [], [])
  else
    (⟨st.alerts.map fun sd => (sd.1, (tickCity (fetch sd.1).1 (fetch sd.1).2 sd.1 sd.2).1),
        st.timer⟩,
      st.alerts.map Prod.fst,
      (st.alerts.map fun sd => (tickCity (fetch sd.1).1 (fetch sd.1).2 sd.1 sd.2).2).flatten)

/-- The spec's timer invariant: the chat's repeating job is scheduled iff
the chat has at least one alert stored. -/
def timerInv (st : MonitorState) : Prop :=
  st.timer = true ↔ st.alerts ≠ []

/-! ## Concrete fixtures used by witnesses and counterexamples -/

/-- A city tracking the two thresholds 20 and 30, both armed. -/
def cityTwoTargets : CityData := ⟨"X", "u", [(20, false), (30, false)]⟩

/-- A single-city chat state around `cityTwoTargets`. -/
def stateTwoTargets : MonitorState := ⟨[("S", cityTwoTargets)], true⟩

/-- A chat state whose only watch, at threshold 25, has already fired. -/
def stateFired25 : MonitorState := ⟨[("S", ⟨"X", "u", [(25, true)]⟩)], true⟩

/-- An oracle reporting a current temperature of 32 everywhere and no
forecast. -/
def fetch32 : String → Option ℚ × Option ℚ := fun _ => (some 32, none)

/-- An oracle with no usable current reading anywhere. -/
def fetchDown : String → Option ℚ × Option ℚ := fun _ => (none, none)

/-- A chat tracking two cities: station "A" with an armed watch at 25 and
station "B" with an armed watch at 30. -/
def stateTwoCities : MonitorState :=
  ⟨[("A", ⟨"CityA", "u", [(25, false)]⟩), ("B", ⟨"CityB", "v", [(30, false)]⟩)], true⟩

/-- An oracle for which station "A" is down while station "B" reports 32
with a predicted high of 90. -/
def fetchAOnlyDown : String → Option ℚ × Option ℚ :=
  fun sid => if sid = "A" then (none, none) else (some 32, some 90)

/-! ## Helper lemmas about the tick -/

theorem processTarget_closed (r : ℚ) (p : Target) :
    processTarget r p =
      ((p.1, if p.1 ≤ r then true else if r < p.1 - 5 then false else p.2),
        !p.2 && decide (p.1 ≤ r)) := by
  unfold processTarget
  by_cases hle : p.1 ≤ r
  · have hnr : ¬r < p.1 - 5 := by linarith
    cases hb : p.2 <;> simp [hnr, hle, hb]
  · cases hb : p.2 <;> by_cases hr5 : r < p.1 - 5 <;> simp [hle, hr5, hb]

theorem processTargets_closed (r : ℚ) (ts : List Target) :
    processTargets r ts =
      (ts.map fun p => (p.1, if p.1 ≤ r then true else if r < p.1 - 5 then false else p.2),
        (ts.filter fun p => !p.2 && decide (p.1 ≤ r)).map Prod.fst) := by
  induction ts with
  | nil => simp [processTargets]
  | cons p ps ih =>
      rw [processTargets, processTarget_closed, ih]
      by_cases hf : (!p.2 && decide (p.1 ≤ r)) = true
      · simp [List.filter_cons, hf]
      · simp [List.filter_cons, hf]

theorem processTargets_fires_iff (r : ℚ) (ts : List Target) :
    (processTargets r ts).2 ≠ [] ↔ ∃ p ∈ ts, p.2 = false ∧ p.1 ≤ r := by
  rw [processTargets_closed]
  simp only [ne_eq, List.map_eq_nil_iff, List.filter_eq_nil_iff, not_forall]
  constructor
  · rintro ⟨p, hp, hcond⟩
    refine ⟨p, hp, ?_⟩
    simpa using of_not_not hcond
  · rintro ⟨p, hp, hb, hle⟩
    exact ⟨p, hp, by simp [hb, hle]⟩

/-! ## Helper lemmas about `insertTarget` -/

theorem insertTarget_keys_of_mem (k : ℚ) (ts : List Target)
    (h : k ∈ ts.map Prod.fst) :
    (insertTarget k ts).map Prod.fst = ts.map Prod.fst := by
  have hany : ts.any (fun p => p.1 = k) = true := by
    simp only [List.any_eq_true, decide_eq_true_eq]
    obtain ⟨p, hp, hk⟩ := List.mem_map.mp h
    exact ⟨p, hp, hk⟩
  unfold insertTarget
  rw [if_pos hany, List.map_map]
  apply List.map_congr_left
  intro p _
  by_cases hpk : p.1 = k <;> simp [hpk]

theorem insertTarget_keys_of_not_mem (k : ℚ) (ts : List Target)
    (h : k ∉ ts.map Prod.fst) :
    (insertTarget k ts).map Prod.fst = ts.map Prod.fst ++ [k] := by
  have hany : ts.any (fun p => p.1 = k) = false := by
    simp only [List.any_eq_false, decide_eq_true_eq]
    intro p hp hk
    exact h (List.mem_map.mpr ⟨p, hp, hk⟩)
  unfold insertTarget
  rw [if_neg (by simp [hany]), List.map_append]
  rfl

theorem insertTarget_of_mem_false (k : ℚ) (ts : List Target)
    (hmem : k ∈ ts.map Prod.fst)
    (hv : ∀ p ∈ ts, p.1 = k → p.2 = false) :
    insertTarget k ts = ts := by
  have hany : ts.any (fun p => p.1 = k) = true := by
    simp only [List.any_eq_true, decide_eq_true_eq]
    obtain ⟨p, hp, hk⟩ := List.mem_map.mp hmem
    exact ⟨p, hp, hk⟩
  unfold insertTarget
  rw [if_pos hany]
  conv_rhs => rw [← List.map_id ts]
  apply List.map_congr_left
  intro p hp
  by_cases hpk : p.1 = k
  · have hfalse := hv p hp hpk
    cases p with
    | mk a b =>
        simp only at hpk hfalse
        simp [hpk, hfalse]
  · simp [hpk]

theorem mem_insertTarget_self (k : ℚ) (ts : List Target) :
    (k, false) ∈ insertTarget k ts := by
  unfold insertTarget
  by_cases hany : ts.any (fun p => p.1 = k) = true
  · rw [if_pos hany]
    simp only [List.any_eq_true, decide_eq_true_eq] at hany
    obtain ⟨p, hp, hpk⟩ := hany
    exact List.mem_map.mpr ⟨p, hp, by simp [hpk]⟩
  · rw [if_neg hany]
    simp

theorem mem_insertTarget_of_ne (k : ℚ) (ts : List Target) (p : Target)
    (hp : p ∈ ts) (hne : p.1 ≠ k) : p ∈ insertTarget k ts := by
  unfold insertTarget
  by_cases hany : ts.any (fun q => q.1 = k) = true
  · rw [if_pos hany]
    exact List.mem_map.mpr ⟨p, hp, by simp [hne]⟩
  · rw [if_neg hany]
    exact List.mem_append_left _ hp

theorem insertTarget_value_at_key (k : ℚ) (ts : List Target) (p : Target)
    (hp : p ∈ insertTarget k ts) (hpk : p.1 = k) : p.2 = false := by
  unfold insertTarget at hp
  by_cases hany : ts.any (fun q => q.1 = k) = true
  · rw [if_pos hany] at hp
    obtain ⟨q, _, hqe⟩ := List.mem_map.mp hp
    by_cases hqk : q.1 = k
    · rw [if_pos hqk] at hqe
      rw [← hqe]
    · rw [if_neg hqk] at hqe
      rw [hqe] at hqk
      exact absurd hpk hqk
  · rw [if_neg hany] at hp
    rcases List.mem_append.mp hp with h1 | h2
    · exfalso
      apply hany
      simp only [List.any_eq_true, decide_eq_true_eq]
      exact ⟨p, h1, hpk⟩
    · simp only [List.mem_singleton] at h2
      rw [h2]

theorem insertTarget_idem (k : ℚ) (ts : List Target) :
    insertTarget k (insertTarget k ts) = insertTarget k ts := by
  apply insertTarget_of_mem_false
  · by_cases hmem : k ∈ ts.map Prod.fst
    · rw [insertTarget_keys_of_mem k ts hmem]
      exact hmem
    · rw [insertTarget_keys_of_not_mem k ts hmem]
      simp
  · intro p hp hpk
    exact insertTarget_value_at_key k ts p hp hpk

theorem insertTarget_keys_nodup (k : ℚ) (ts : List Target)
    (h : (ts.map Prod.fst).Nodup) : ((insertTarget k ts).map Prod.fst).Nodup := by
  by_cases hmem : k ∈ ts.map Prod.fst
  · rw [insertTarget_keys_of_mem k ts hmem]
    exact h
  · rw [insertTarget_keys_of_not_mem k ts hmem]
    simp [List.nodup_append, h, hmem]

theorem insertTarget_count_one (k : ℚ) (ts : List Target)
    (h : (ts.map Prod.fst).Nodup) :
    ((insertTarget k ts).map Prod.fst).count k = 1 := by
  by_cases hmem : k ∈ ts.map Prod.fst
  · rw [insertTarget_keys_of_mem k ts hmem]
    exact List.count_eq_one_of_mem h hmem
  · rw [insertTarget_keys_of_not_mem k ts hmem, List.count_append]
    rw [List.count_eq_zero.mpr hmem]
    simp

/-! ## Helper lemmas about lookup and `renderTargets` -/

theorem lookup_eq_some_of_mem (ts : List Target) (t : ℚ) (b : Bool)
    (hn : (ts.map Prod.fst).Nodup) (hm : (t, b) ∈ ts) :
    ts.lookup t = some b := by
  induction ts with
  | nil => simp at hm
  | cons q qs ih =>
      obtain ⟨a, c⟩ := q
      simp only [List.map_cons, List.nodup_cons] at hn
      rcases List.mem_cons.mp hm with heq | hmem'
      · obtain ⟨rfl, rfl⟩ := Prod.mk.injEq .. ▸ And.intro (congrArg Prod.fst heq) (congrArg Prod.snd heq)
        simp [List.lookup]
      · have hta : t ≠ a := by
          intro h
          subst h
          exact hn.1 (List.mem_map.mpr ⟨(t, b), hmem', rfl⟩)
        have hba : (t == a) = false := beq_eq_false_iff_ne.mpr hta
        simp only [List.lookup, hba]
        exact ih hn.2 hmem'

theorem mem_renderTargets (ts : List Target) (p : Target)
    (hn : (ts.map Prod.fst).Nodup) (hm : p ∈ ts) : p ∈ renderTargets ts := by
  unfold renderTargets
  have hkey : p.1 ∈ List.insertionSort (· ≤ ·) (ts.map Prod.fst) :=
    (List.perm_insertionSort _ _).mem_iff.mpr (List.mem_map.mpr ⟨p, hm, rfl⟩)
  refine List.mem_map.mpr ⟨p.1, hkey, ?_⟩
  rw [lookup_eq_some_of_mem ts p.1 p.2 hn (by cases p; exact hm)]
  rfl

/-! ## Helper lemmas about `tickCity` and `check_weather_job` -/

theorem tickCity_none (hi : Option ℚ) (s : String) (d : CityData) :
    tickCity none hi s d = (d, []) := rfl

theorem tickCity_some_notifs (r : ℚ) (hi : Option ℚ) (s : String) (d : CityData) :
    (tickCity (some r) hi s d).2 =
      (d.targets.filter fun p => !p.2 && decide (p.1 ≤ r)).map
        fun p => ⟨s, d.city, r, p.1, hi⟩ := by
  simp [tickCity, processTargets_closed, List.map_map]

theorem tickCity_some_targets (r : ℚ) (hi : Option ℚ) (s : String) (d : CityData) :
    (tickCity (some r) hi s d).1 =
      { d with targets := d.targets.map fun p =>
          (p.1, if p.1 ≤ r then true else if r < p.1 - 5 then false else p.2) } := by
  simp [tickCity, processTargets_closed]

theorem tickCity_station (cur hi : Option ℚ) (s : String) (d : CityData) :
    ∀ n ∈ (tickCity cur hi s d).2, n.station = s := by
  cases cur with
  | none => simp [tickCity_none]
  | some r =>
      intro n hn
      rw [tickCity_some_notifs] at hn
      obtain ⟨p, _, rfl⟩ := List.mem_map.mp hn
      rfl

theorem check_weather_job_nonempty (fetch : String → Option ℚ × Option ℚ)
    (st : MonitorState) (h : st.alerts ≠ []) :
    check_weather_job fetch st =
      (⟨st.alerts.map fun sd => (sd.1, (tickCity (fetch sd.1).1 (fetch sd.1).2 sd.1 sd.2).1),
          st.timer⟩,
        st.alerts.map Prod.fst,
        (st.alerts.map fun sd =>
          (tickCity (fetch sd.1).1 (fetch sd.1).2 sd.1 sd.2).2).flatten) := by
  unfold check_weather_job
  rw [if_neg h]

theorem filter_station_flatten_nil (fetch : String → Option ℚ × Option ℚ)
    (qs : List (String × CityData)) (s : String) (hs : s ∉ qs.map Prod.fst) :
    (((qs.map fun sd => (tickCity (fetch sd.1).1 (fetch sd.1).2 sd.1 sd.2).2).flatten).filter
        fun n => n.station == s) = [] := by
  apply List.filter_eq_nil_iff.mpr
  intro n hn
  obtain ⟨l, hl, hnl⟩ := List.mem_flatten.mp hn
  obtain ⟨sd, hsd, rfl⟩ := List.mem_map.mp hl
  have hst := tickCity_station (fetch sd.1).1 (fetch sd.1).2 sd.1 sd.2 n hnl
  have hne : sd.1 ≠ s := fun h => hs (List.mem_map.mpr ⟨sd, hsd, h⟩)
  simp [hst, hne]

theorem filter_station_self (cur hi : Option ℚ) (s : String) (d : CityData) :
    ((tickCity cur hi s d).2.filter fun n => n.station == s) =
      (tickCity cur hi s d).2 := by
  apply List.filter_eq_self.mpr
  intro n hn
  rw [tickCity_station cur hi s d n hn]
  simp

theorem filter_station_flatten (fetch : String → Option ℚ × Option ℚ)
    (al : List (String × CityData)) (s : String) (d : CityData)
    (hn : (al.map Prod.fst).Nodup) (hm : (s, d) ∈ al) :
    (((al.map fun sd => (tickCity (fetch sd.1).1 (fetch sd.1).2 sd.1 sd.2).2).flatten).filter
        fun n => n.station == s) =
      (tickCity (fetch s).1 (fetch s).2 s d).2 := by
  induction al with
  | nil => simp at hm
  | cons q qs ih =>
      simp only [List.map_cons, List.flatten_cons, List.filter_append]
      simp only [List.map_cons, List.nodup_cons] at hn
      rcases List.mem_cons.mp hm with heq | hmem'
      · rw [← heq]
        rw [← heq] at hn
        rw [filter_station_self, filter_station_flatten_nil fetch qs s hn.1]
        simp
      · have hqs : q.1 ≠ s := by
          intro h
          exact hn.1 (h ▸ List.mem_map.mpr ⟨(s, d), hmem', (congrArg Prod.fst rfl).trans rfl⟩)
        have hhead : ((tickCity (fetch q.1).1 (fetch q.1).2 q.1 q.2).2.filter
            fun n => n.station == s) = [] := by
          apply List.filter_eq_nil_iff.mpr
          intro n hnmem
          rw [tickCity_station _ _ _ _ n hnmem]
          simp [hqs]
        rw [hhead, ih hn.2 hmem']
        simp

theorem tickCity_notifs_ne_nil_iff (r : ℚ) (hi : Option ℚ) (s : String) (d : CityData) :
    (tickCity (some r) hi s d).2 ≠ [] ↔ ∃ p ∈ d.targets, p.2 = false ∧ p.1 ≤ r := by
  have h : (tickCity (some r) hi s d).2 =
      (processTargets r d.targets).2.map fun t => ⟨s, d.city, r, t, hi⟩ := by
    rcases hpt : processTargets r d.targets with ⟨ts, fired⟩
    simp [tickCity, hpt]
  rw [h, ne_eq, List.map_eq_nil_iff, ← ne_eq, processTargets_fires_iff]

theorem addCity_ne_nil (p : PendingCity) (nums : List ℚ)
    (alerts : List (String × CityData)) : addCity p nums alerts ≠ [] := by
  unfold addCity
  by_cases hany : alerts.any (fun sd => sd.1 = p.station_id) = true
  · rw [if_pos hany]
    intro hc
    rw [List.map_eq_nil_iff] at hc
    subst hc
    simp at hany
  · rw [if_neg hany]
    simp

/-! ## The claims -/

/-- C1: for every watch set and every available reading `r`, a tick over a
single-city monitor fires at least one notification iff some stored watch
is armed (`alerted = false`) and its threshold is at most `r`; with no such
watch the tick sends nothing. -/
theorem c1_tick_fires_iff_armed_crossing (fetch : String → Option ℚ × Option ℚ)
    (st : MonitorState) (s : String) (d : CityData) (r : ℚ)
    (hA : st.alerts = [(s, d)]) (hr : (fetch s).1 = some r) :
    (check_weather_job fetch st).2.2 ≠ [] ↔
      ∃ p ∈ d.targets, p.2 = false ∧ p.1 ≤ r := by
  have hne : st.alerts ≠ [] := by simp [hA]
  rw [check_weather_job_nonempty fetch st hne, hA]
  simp only [List.map_cons, List.map_nil, List.flatten_cons, List.flatten_nil,
    List.append_nil]
  rw [hr]
  exact tickCity_notifs_ne_nil_iff r (fetch s).2 s d

/-- Witness for C1: for the monitor watching thresholds 20 and 30 (both
armed) at reading 32, the tick fires. -/
theorem c1_witness : (check_weather_job fetch32 stateTwoTargets).2.2 ≠ [] :=
  (c1_tick_fires_iff_armed_crossing fetch32 stateTwoTargets "S" cityTwoTargets 32
      rfl rfl).mpr ⟨(20, false), by decide, rfl, by norm_num⟩

/-- Counterexample to C2 as stated: for watches 20 and 30 (both armed) and
reading 32, the tick sends TWO notifications — one per crossed threshold —
not exactly one. -/
theorem c2_counterexample :
    (check_weather_job fetch32 stateTwoTargets).2.2.length = 2
    ∧ ¬((check_weather_job fetch32 stateTwoTargets).2.2.length = 1) := by
  have h : (check_weather_job fetch32 stateTwoTargets).2.2 =
      [⟨"S", "X", 32, 20, none⟩, ⟨"S", "X", 32, 30, none⟩] := by
    norm_num [check_weather_job, fetch32, stateTwoTargets, cityTwoTargets, tickCity,
      processTargets, processTarget]
  rw [h]
  simp

/-- C2 (amended): when a tick finds crossings it sends one notification
per crossed threshold — each summarizing the current reading, the
forecast, and that one threshold — rather than a single message; in the
scenario with watches 20 and 30 at reading 32, two notifications are sent and
both watches transition out of armed. -/
theorem c2_notification_per_crossing (r : ℚ) (hi : Option ℚ) (s : String) (d : CityData) :
    ((tickCity (some r) hi s d).2 =
      (d.targets.filter fun p => !p.2 && decide (p.1 ≤ r)).map
        fun p => ⟨s, d.city, r, p.1, hi⟩)
    ∧ ((tickCity (some r) hi s d).1.targets =
      d.targets.map fun p => (p.1, if p.1 ≤ r then true else if r < p.1 - 5 then false else p.2))
    ∧ (check_weather_job fetch32 stateTwoTargets).2.2.length = 2
    ∧ (check_weather_job fetch32 stateTwoTargets).1.alerts =
        [("S", ⟨"X", "u", [(20, true), (30, true)]⟩)] := by
  refine ⟨tickCity_some_notifs r hi s d, ?_, ?_, ?_⟩
  · rw [tickCity_some_targets]
  · have h : (check_weather_job fetch32 stateTwoTargets).2.2 =
        [⟨"S", "X", 32, 20, none⟩, ⟨"S", "X", 32, 30, none⟩] := by
      norm_num [check_weather_job, fetch32, stateTwoTargets, cityTwoTargets, tickCity,
        processTargets, processTarget]
    rw [h]
    rfl
  · norm_num [check_weather_job, fetch32, stateTwoTargets, cityTwoTargets, tickCity,
      processTargets, processTarget]

/-- C3: hysteresis with margin 5.  A watch at threshold 25 fires at
reading 26; at reading 22 it neither fires nor re-arms; for any reading at
or above 20 it stays fired and silent (even at or above the threshold);
and it re-arms exactly when a reading drops strictly below 20. -/
theorem c3_hysteresis_margin :
    processTarget 26 (25, false) = ((25, true), true)
    ∧ processTarget 22 (25, true) = ((25, true), false)
    ∧ (∀ r : ℚ, 20 ≤ r → processTarget r (25, true) = ((25, true), false))
    ∧ (∀ r : ℚ, r < 20 → processTarget r (25, true) = ((25, false), false)) := by
  refine ⟨by norm_num [processTarget], by norm_num [processTarget], ?_, ?_⟩
  · intro r h
    rw [processTarget_closed]
    have h5 : ¬(r < 25 - 5) := by intro hc; linarith
    by_cases h25 : (25 : ℚ) ≤ r
    · simp [h25]
    · simp [h25, h5]
  · intro r h
    rw [processTarget_closed]
    have h25 : ¬((25 : ℚ) ≤ r) := by intro hc; linarith
    have h5 : r < 25 - 5 := by linarith
    simp [h25, h5]

/-- Witness for C3: the quantified clauses at readings 30 (stays fired,
no new firing) and 19 (re-arms). -/
theorem c3_witness :
    processTarget 30 (25, true) = ((25, true), false)
    ∧ processTarget 19 (25, true) = ((25, false), false) :=
  ⟨c3_hysteresis_margin.2.2.1 30 (by norm_num),
   c3_hysteresis_margin.2.2.2 19 (by norm_num)⟩

/-- C4: adding a watch is idempotent.  Adding the same threshold twice —
in one message (`addTargets [k, k]`) or in two separate add operations —
leaves exactly what one add leaves; under the key-uniqueness invariant the
threshold then appears exactly once, and the invariant is preserved. -/
theorem c4_add_watch_idempotent (k : ℚ) (ts : List Target)
    (h : (ts.map Prod.fst).Nodup) :
    insertTarget k (insertTarget k ts) = insertTarget k ts
    ∧ addTargets [k, k] ts = addTargets [k] ts
    ∧ ((insertTarget k ts).map Prod.fst).Nodup
    ∧ ((insertTarget k ts).map Prod.fst).count k = 1 := by
  refine ⟨insertTarget_idem k ts, ?_, insertTarget_keys_nodup k ts h,
    insertTarget_count_one k ts h⟩
  show insertTarget k (insertTarget k ts) = insertTarget k ts
  exact insertTarget_idem k ts

/-- Witness for C4 at threshold 25 over the one-watch set containing 30. -/
theorem c4_witness :
    insertTarget 25 (insertTarget 25 [(30, false)]) = insertTarget 25 [(30, false)]
    ∧ ((insertTarget 25 [(30, false)]).map Prod.fst).count 25 = 1 :=
  ⟨(c4_add_watch_idempotent 25 [(30, false)] (by decide)).1,
   (c4_add_watch_idempotent 25 [(30, false)] (by decide)).2.2.2⟩

/-- Counterexample to C5 as stated: adding threshold 25 to a chat whose
watch at 25 has already fired is NOT a no-op — the watch's `alerted` flag
is reset to `False`, so the fired watch does not remain fired. -/
theorem c5_counterexample :
    (set_thresholds ⟨"S", "X", "u"⟩ "25" stateFired25).1 =
      ⟨[("S", ⟨"X", "u", [(25, false)]⟩)], true⟩
    ∧ (set_thresholds ⟨"S", "X", "u"⟩ "25" stateFired25).1 ≠ stateFired25 := by
  have h : (set_thresholds ⟨"S", "X", "u"⟩ "25" stateFired25).1 =
      ⟨[("S", ⟨"X", "u", [(25, false)]⟩)], true⟩ := by
    simp [set_thresholds, parseThresholds, List.mapM, List.mapM.loop, parseFloat?,
      parseMantissa?, parseSign, splitOnPred, stripChars, natVal, addCity, addTargets,
      insertTarget, stateFired25]
  refine ⟨h, ?_⟩
  rw [h]
  decide

/-- C5 (amended): adding a threshold that already exists leaves the set of
thresholds, the watch count, and every other watch unchanged, but resets
the existing watch at that threshold to armed (`alerted = False`); a fired
watch at that threshold does not stay fired. -/
theorem c5_add_existing_rearms (k : ℚ) (ts : List Target)
    (h : k ∈ ts.map Prod.fst) :
    (insertTarget k ts).map Prod.fst = ts.map Prod.fst
    ∧ (k, false) ∈ insertTarget k ts
    ∧ (∀ p ∈ ts, p.1 ≠ k → p ∈ insertTarget k ts)
    ∧ (insertTarget k ts).length = ts.length := by
  refine ⟨insertTarget_keys_of_mem k ts h, mem_insertTarget_self k ts,
    fun p hp hne => mem_insertTarget_of_ne k ts p hp hne, ?_⟩
  have hlen := congrArg List.length (insertTarget_keys_of_mem k ts h)
  simpa using hlen

/-- Witness for C5 (amended) over the one-watch set whose watch at 25 has fired. -/
theorem c5_witness :
    (insertTarget 25 [(25, true)]).map Prod.fst = [(25, true)].map Prod.fst
    ∧ ((25 : ℚ), false) ∈ insertTarget 25 [(25, true)] :=
  ⟨(c5_add_existing_rearms 25 [(25, true)] (by decide)).1,
   (c5_add_existing_rearms 25 [(25, true)] (by decide)).2.1⟩

/-- C6: when the Temperature Source returns no usable current reading for
the stations of a chat, the tick sends no notification and leaves every
watch (threshold and armed/fired state) unchanged. -/
theorem c6_unavailable_no_effect (fetch : String → Option ℚ × Option ℚ)
    (st : MonitorState) (h : ∀ sd ∈ st.alerts, (fetch sd.1).1 = none) :
    (check_weather_job fetch st).1.alerts = st.alerts
    ∧ (check_weather_job fetch st).2.2 = [] := by
  by_cases he : st.alerts = []
  · simp [check_weather_job, he]
  · rw [check_weather_job_nonempty fetch st he]
    constructor
    · show st.alerts.map _ = st.alerts
      conv_rhs => rw [← List.map_id st.alerts]
      apply List.map_congr_left
      intro sd hsd
      rw [h sd hsd, tickCity_none]
      rfl
    · show (st.alerts.map _).flatten = []
      have hz : ∀ sd ∈ st.alerts,
          (tickCity (fetch sd.1).1 (fetch sd.1).2 sd.1 sd.2).2 = ([] : List Notification) := by
        intro sd hsd
        rw [h sd hsd, tickCity_none]
      rw [List.map_congr_left hz]
      simp [List.flatten_eq_nil_iff]

/-- Witness for C6: the fired-25 chat under a fully unavailable source. -/
theorem c6_witness :
    (check_weather_job fetchDown stateFired25).1.alerts = stateFired25.alerts
    ∧ (check_weather_job fetchDown stateFired25).2.2 = [] :=
  c6_unavailable_no_effect fetchDown stateFired25 (by decide)

/-- C7: for every malformed thresholds message (text that does not parse
as comma-separated numbers) the add operation replies with the usage
message, stays in the `THRESHOLDS` conversation state, and leaves the
chat's stored alert state completely unchanged. -/
theorem c7_malformed_input_rejected (p : PendingCity) (text : String)
    (st : MonitorState) (h : parseThresholds text = none) :
    set_thresholds p text st = (st, Reply.invalidFormat, ConvOutcome.thresholds) := by
  simp [set_thresholds, h]

/-- Witness for C7 at the malformed input "abc". -/
theorem c7_witness :
    set_thresholds ⟨"S", "X", "u"⟩ "abc" stateFired25 =
      (stateFired25, Reply.invalidFormat, ConvOutcome.thresholds) :=
  c7_malformed_input_rejected ⟨"S", "X", "u"⟩ "abc" stateFired25 (by decide)

/-- C8: the timer invariant.  A tick that finds the watch set empty
removes the chat's own job without fetching or notifying; `clear_alerts`
empties the watch set and removes the job (so the next scheduled tick does
not occur, i.e. `timer = false`); and the invariant "the timer exists iff
the watch set is non-empty" is preserved by `set_thresholds`,
`clear_alerts` and the tick itself. -/
theorem c8_timer_iff_watches_nonempty :
    (∀ (fetch : String → Option ℚ × Option ℚ) (st : MonitorState), st.alerts = [] →
        check_weather_job fetch st = (⟨st.alerts, false⟩, [], []))
    ∧ (∀ st : MonitorState,
        (clear_alerts st).1.alerts = [] ∧ (clear_alerts st).1.timer = false)
    ∧ (∀ st : MonitorState, timerInv (clear_alerts st).1)
    ∧ (∀ (p : PendingCity) (text : String) (st : MonitorState),
        timerInv st → timerInv (set_thresholds p text st).1)
    ∧ (∀ (fetch : String → Option ℚ × Option ℚ) (st : MonitorState),
        timerInv st → timerInv (check_weather_job fetch st).1) := by
  refine ⟨?_, ?_, ?_, ?_, ?_⟩
  · intro fetch st h
    simp [check_weather_job, h]
  · intro st
    exact ⟨rfl, rfl⟩
  · intro st
    simp [timerInv, clear_alerts]
  · intro p text st hinv
    cases hp : parseThresholds text with
    | none =>
        simp only [set_thresholds, hp]
        exact hinv
    | some nums =>
        simp only [set_thresholds, hp]
        simp [timerInv, addCity_ne_nil]
  · intro fetch st hinv
    by_cases he : st.alerts = []
    · simp [check_weather_job, he, timerInv]
    · rw [check_weather_job_nonempty fetch st he]
      simpa [timerInv, List.map_eq_nil_iff] using hinv

/-- Witness for C8: the empty-watches tick self-removes; clearing the
fired-25 chat restores the invariant; a successful add keeps it. -/
theorem c8_witness :
    check_weather_job fetchDown ⟨[], true⟩ = (⟨[], false⟩, [], [])
    ∧ timerInv (clear_alerts stateFired25).1
    ∧ timerInv (set_thresholds ⟨"S", "X", "u"⟩ "25" stateFired25).1
    ∧ timerInv (check_weather_job fetchDown stateFired25).1 :=
  ⟨c8_timer_iff_watches_nonempty.1 fetchDown ⟨[], true⟩ rfl,
   c8_timer_iff_watches_nonempty.2.2.1 stateFired25,
   c8_timer_iff_watches_nonempty.2.2.2.1 ⟨"S", "X", "u"⟩ "25" stateFired25
     (by simp [timerInv, stateFired25]),
   c8_timer_iff_watches_nonempty.2.2.2.2 fetchDown stateFired25
     (by simp [timerInv, stateFired25])⟩

/-- Counterexample to C9 as stated: `list_alerts` does NOT fetch a live
current reading from the Temperature Source — even for a chat with stored
alerts and a fully available source, the list of stations it queries is
empty (the claim requires at least one query, whose result the message
would show). -/
theorem c9_counterexample :
    stateFired25.alerts ≠ [] ∧ (list_alerts fetch32 stateFired25).2.2 = [] := by
  constructor
  · simp [stateFired25]
  · rfl

/-- C9 (amended): `list_alerts` is a read-only projection — the state is
returned unchanged and no station is queried — and its message content
reflects every stored watch with its own fired/armed flag (each station
block lists the station's sorted thresholds with their `alerted` status);
it does not fetch or display a live current reading. -/
theorem c9_list_readonly_projection (fetch : String → Option ℚ × Option ℚ)
    (st : MonitorState)
    (h : ∀ sd ∈ st.alerts, (sd.2.targets.map Prod.fst).Nodup) :
    (list_alerts fetch st).1 = st
    ∧ (list_alerts fetch st).2.2 = []
    ∧ (∀ sd ∈ st.alerts,
        (sd.2.city, renderTargets sd.2.targets) ∈ (list_alerts fetch st).2.1)
    ∧ (∀ sd ∈ st.alerts, ∀ p ∈ sd.2.targets, p ∈ renderTargets sd.2.targets) := by
  refine ⟨rfl, rfl, ?_, ?_⟩
  · intro sd hsd
    exact List.mem_map.mpr ⟨sd, hsd, rfl⟩
  · intro sd hsd p hp
    exact mem_renderTargets sd.2.targets p (h sd hsd) hp

/-- Witness for C9 (amended) on the fired-25 chat: the state is unchanged,
nothing is fetched, and the fired watch shows up as fired. -/
theorem c9_witness :
    (list_alerts fetch32 stateFired25).1 = stateFired25
    ∧ ((25 : ℚ), true) ∈ renderTargets [((25 : ℚ), true)] :=
  ⟨(c9_list_readonly_projection fetch32 stateFired25 (by decide)).1,
   (c9_list_readonly_projection fetch32 stateFired25 (by decide)).2.2.2
     ("S", ⟨"X", "u", [(25, true)]⟩) (by decide) (25, true) (by decide)⟩

/-- C10: within a single tick over several cities, a Temperature Source
failure for one station leaves exactly that station's watches unchanged
and produces no notification for it, while every station with an available
reading is still evaluated in the same tick and its notifications are
exactly those of its own city loop iteration. -/
theorem c10_per_city_failure_isolation (fetch : String → Option ℚ × Option ℚ)
    (st : MonitorState) (s : String) (d : CityData)
    (hk : (st.alerts.map Prod.fst).Nodup) (hm : (s, d) ∈ st.alerts) :
    ((fetch s).1 = none →
        ((s, d) ∈ (check_weather_job fetch st).1.alerts
          ∧ ((check_weather_job fetch st).2.2.filter fun n => n.station == s) = []))
    ∧ (∀ r : ℚ, (fetch s).1 = some r →
        ((s, (tickCity (some r) (fetch s).2 s d).1) ∈ (check_weather_job fetch st).1.alerts
          ∧ ((check_weather_job fetch st).2.2.filter fun n => n.station == s) =
              (tickCity (some r) (fetch s).2 s d).2)) := by
  have hne : st.alerts ≠ [] := by
    intro hc
    rw [hc] at hm
    simp at hm
  rw [check_weather_job_nonempty fetch st hne]
  constructor
  · intro hnone
    constructor
    · refine List.mem_map.mpr ⟨(s, d), hm, ?_⟩
      show (s, (tickCity (fetch s).1 (fetch s).2 s d).1) = (s, d)
      rw [hnone, tickCity_none]
    · show ((st.alerts.map _).flatten.filter _) = _
      rw [filter_station_flatten fetch st.alerts s d hk hm, hnone, tickCity_none]
  · intro r hr
    constructor
    · refine List.mem_map.mpr ⟨(s, d), hm, ?_⟩
      show (s, (tickCity (fetch s).1 (fetch s).2 s d).1) =
        (s, (tickCity (some r) (fetch s).2 s d).1)
      rw [hr]
    · show ((st.alerts.map _).flatten.filter _) = _
      rw [filter_station_flatten fetch st.alerts s d hk hm, hr]

/-- Witness for C10: two cities, station "A" down and station "B"
reporting 32.  "A"'s watch set is untouched and no message mentions it;
"B" still fires its 30-degree watch in the same tick. -/
theorem c10_witness :
    (("A", (⟨"CityA", "u", [(25, false)]⟩ : CityData))
        ∈ (check_weather_job fetchAOnlyDown stateTwoCities).1.alerts
      ∧ ((check_weather_job fetchAOnlyDown stateTwoCities).2.2.filter
          fun n => n.station == "A") = [])
    ∧ ((check_weather_job fetchAOnlyDown stateTwoCities).2.2.filter
          fun n => n.station == "B") =
        (tickCity (some 32) (fetchAOnlyDown "B").2 "B" ⟨"CityB", "v", [(30, false)]⟩).2 :=
  ⟨(c10_per_city_failure_isolation fetchAOnlyDown stateTwoCities "A"
      ⟨"CityA", "u", [(25, false)]⟩ (by decide) (by decide)).1 (by decide),
   ((c10_per_city_failure_isolation fetchAOnlyDown stateTwoCities "B"
      ⟨"CityB", "v", [(30, false)]⟩ (by decide) (by decide)).2 32 (by decide)).2⟩
